import Mathlib

/-!
Verification of the Aadhaar family-info chat bot core.

This file gives a shallow embedding, in Lean, of the stateful core of the
bot source (masking utilities, in-memory session store, and the inbound
message handler), translated directly from the JavaScript source, and
proves or refutes the frozen specification claims about it.

Modelling conventions:
- JavaScript strings are Lean `String`; `null`/`undefined` inputs are
  `Option` with `none`.
- JS truthiness on strings (empty string is falsy) is modelled explicitly
  where the source relies on it.
- `s.slice(-k)` is modelled including the JS quirk that `-0 === 0`, so a
  zero argument yields the whole string.
- The Telegram transport and the HTTP fetch are external collaborators;
  their outcomes (fetch result, JSON parse result, failure of the final
  outbound send) are inputs to the handler.
-/

namespace AadharBot

/-- JS single-character repetition, as in a repeat call on a one-character
string. -/
def repeatChar (c : Char) (n : Nat) : String :=
  String.mk (List.replicate n c)

/-- JS slice with a negative index, modelling the source expression
s.slice(-k): the last k characters, except that negative zero equals zero
so k = 0 yields the whole string. -/
def jsSliceLast (s : String) (k : Nat) : String :=
  if k = 0 then s else String.mk (s.data.drop (s.length - k))

/-- Embedding of maskString from the source: falsy (absent or empty) input
gives the placeholder; a string no longer than keepLast becomes all
asterisks; otherwise asterisks followed by slice(-keepLast). -/
def maskString (str : Option String) (keepLast : Nat) : String :=
  match str with
  | none => "N/A"
  | some s =>
    if s.data.isEmpty then "N/A"
    else if s.length ≤ keepLast then repeatChar '*' s.length
    else repeatChar '*' (s.length - keepLast) ++ jsSliceLast s keepLast

/-- Embedding of maskName from the source: falsy input gives the
placeholder; otherwise the upper-cased first character, a dot, and
length - 1 asterisks. -/
def maskName (name : Option String) : String :=
  match name with
  | none => "N/A"
  | some s =>
    match s.data with
    | [] => "N/A"
    | c :: rest => String.mk (c.toUpper :: '.' :: List.replicate rest.length '*')

lemma data_mk (l : List Char) : (String.mk l).data = l := rfl

lemma length_eq_data (s : String) : s.length = s.data.length := rfl

lemma data_append (a b : String) : (a ++ b).data = a.data ++ b.data := rfl

/-- C5 counterexample: the claim quantifies over any string v and any
non-negative k, but the empty string yields the fixed placeholder (length
3, not 0), and k = 0 duplicates the input because JS slice(-0) returns the
whole string. -/
theorem maskString_spec_cex :
    (maskString (some "") 4).length ≠ ("" : String).length ∧
    maskString (some "abc") 0 = "***abc" ∧
    (maskString (some "abc") 0).length ≠ ("abc" : String).length := by
  decide

/-- C5 (amended): for a non-empty string v and k at least 1, the output of
maskString has the same length as v; when v is longer than k it is
length v - k asterisks followed by the last k characters of v unchanged;
otherwise it is all asterisks. -/
theorem maskString_shape (v : String) (k : Nat) (hv : v.data ≠ []) (hk : 1 ≤ k) :
    (maskString (some v) k).length = v.length ∧
    (k < v.length →
      (maskString (some v) k).data
        = List.replicate (v.length - k) '*' ++ v.data.drop (v.length - k)) ∧
    (v.length ≤ k → (maskString (some v) k).data = List.replicate v.length '*') := by
  have hvb : v.data.isEmpty = false := by
    cases hd : v.data with
    | nil => exact absurd hd hv
    | cons a l => rfl
  have hk0 : k ≠ 0 := by omega
  have h1 : ¬ (v.data.isEmpty = true) := by simp [hvb]
  by_cases hlk : v.length ≤ k
  · have e1 : maskString (some v) k = repeatChar '*' v.length := by
      simp only [maskString]
      rw [if_neg h1, if_pos hlk]
    refine ⟨?_, fun hkl => absurd hlk (by omega), fun _ => ?_⟩
    · rw [e1, repeatChar, length_eq_data, data_mk, List.length_replicate, length_eq_data]
    · rw [e1, repeatChar, data_mk, length_eq_data]
  · have hkl : k < v.length := by omega
    have hdata : (maskString (some v) k).data
        = List.replicate (v.length - k) '*' ++ v.data.drop (v.length - k) := by
      have e2 : maskString (some v) k
          = repeatChar '*' (v.length - k) ++ jsSliceLast v k := by
        simp only [maskString]
        rw [if_neg h1, if_neg hlk]
      rw [e2, data_append, repeatChar, data_mk, jsSliceLast, if_neg hk0, data_mk]
    refine ⟨?_, fun _ => hdata, fun h => absurd h hlk⟩
    rw [length_eq_data, hdata]
    rw [List.length_append, List.length_replicate, List.length_drop]
    rw [length_eq_data] at hkl ⊢
    omega

/-- Witness for the amended C5 statement at a concrete input. -/
theorem maskString_shape_witness :
    (maskString (some "secret1234") 4).length = ("secret1234" : String).length ∧
    (4 < ("secret1234" : String).length →
      (maskString (some "secret1234") 4).data
        = List.replicate (("secret1234" : String).length - 4) '*'
          ++ ("secret1234" : String).data.drop (("secret1234" : String).length - 4)) ∧
    (("secret1234" : String).length ≤ 4 →
      (maskString (some "secret1234") 4).data
        = List.replicate ("secret1234" : String).length '*') :=
  maskString_shape "secret1234" 4 (by decide) (by decide)

/-- C7 counterexample: the claim says no character of v other than the
first appears in the output, but for v = "a*" the asterisk, which is the
second character of v, appears in the masked output. -/
theorem maskName_char_cex :
    '*' ∈ ("a*" : String).data.drop 1 ∧ '*' ∈ (maskName (some "a*")).data := by
  decide

/-- C7 (amended): for non-empty v, the output of maskName is exactly the
upper-cased first character of v, then a dot, then length v - 1 asterisks;
in particular its first character is the upper-cased first character of v,
and the output depends only on the first character and the length of v, so
nothing beyond the first character is revealed (though a dot, an asterisk,
or the upper-cased initial occurring later in v may coincide with output
characters). -/
theorem maskName_shape (v : String) (c : Char) (rest : List Char)
    (h : v.data = c :: rest) :
    (maskName (some v)).data = c.toUpper :: '.' :: List.replicate rest.length '*' ∧
    ∀ w : String, w.data.length = v.data.length → w.data.head? = some c →
      maskName (some w) = maskName (some v) := by
  constructor
  · simp only [maskName, h, data_mk]
  · intro w hlen hhead
    cases hw : w.data with
    | nil => rw [hw] at hhead; simp at hhead
    | cons c2 rest2 =>
      rw [hw] at hhead
      have hc : c2 = c := by
        simpa using hhead
      rw [hw, h] at hlen
      have hr : rest2.length = rest.length := by
        simpa using hlen
      simp only [maskName, h, hw, hc, hr]

/-- Witness for the amended C7 statement at a concrete input. -/
theorem maskName_shape_witness :
    (maskName (some "rahul")).data
      = 'r'.toUpper :: '.' :: List.replicate (['a', 'h', 'u', 'l'] : List Char).length '*' ∧
    ∀ w : String, w.data.length = ("rahul" : String).data.length →
      w.data.head? = some 'r' → maskName (some w) = maskName (some "rahul") :=
  maskName_shape "rahul" 'r' ['a', 'h', 'u', 'l'] (by decide)

/-- JS template-literal rendering of a possibly-undefined string value (an
absent value prints as the text undefined). -/
def jsStr (o : Option String) : String :=
  o.getD "undefined"

/-- JS `x || "N/A"`: the empty string is falsy and also falls back. -/
def orNA (o : Option String) : String :=
  match o with
  | none => "N/A"
  | some s => if s.data.isEmpty then "N/A" else s

/-- Embedding of safeLine from the source: label, colon, and the value with
a nullish fallback to the placeholder. -/
def safeLine (label : String) (value : Option String) : String :=
  label ++ ": " ++ value.getD "N/A"

/-- One session entry, as stored in the authorizedUsers map of the source. -/
structure Session where
  authorized : Bool
  queries : Nat
deriving DecidableEq

/-- The module-level mutable state of the bot process: the authorizedUsers
map (as an association list keyed by chat id) and the totalLookups counter. -/
structure BotState where
  authorizedUsers : List (Nat × Session)
  totalLookups : Nat
deriving DecidableEq

/-- State at process start: no sessions, zero lookups. -/
def initialState : BotState := ⟨[], 0⟩

/-- Reading authorizedUsers[chatId]. -/
def lookupSession (st : BotState) (chatId : Nat) : Option Session :=
  (st.authorizedUsers.find? (fun p => p.1 == chatId)).map (fun p => p.2)

/-- The assignment authorizedUsers[chatId] = (authorized true, queries 0),
performed by the source only when no entry exists for chatId. -/
def addSession (st : BotState) (chatId : Nat) : BotState :=
  { st with authorizedUsers := st.authorizedUsers ++ [(chatId, ⟨true, 0⟩)] }

/-- The two adjacent increments in the source: the queries field of the
entry for chatId, and the global totalLookups counter. -/
def bumpCounters (st : BotState) (chatId : Nat) : BotState :=
  { st with
    authorizedUsers := st.authorizedUsers.map
      (fun p => if p.1 == chatId then (p.1, ⟨p.2.authorized, p.2.queries + 1⟩) else p)
    totalLookups := st.totalLookups + 1 }

/-- Number of keys of the authorizedUsers map (the totalUsers figure of the
stats command). -/
def totalUsers (st : BotState) : Nat :=
  st.authorizedUsers.length

/-- One member entry of the upstream record. -/
structure Member where
  memberName : Option String
  releationship_name : Option String
  memberId : Option String
deriving DecidableEq

/-- The parsed upstream record body; every field may be absent. -/
structure FamilyData where
  schemeName : Option String
  homeDistName : Option String
  homeStateName : Option String
  address : Option String
  memberDetailsList : Option (List Member)
deriving DecidableEq

/-- Outcome of reading the response body as JSON: a parse failure carrying
the error message, or a parsed body (none models a null body). -/
inductive JsonOutcome where
  | malformed (errMsg : String)
  | parsed (data : Option FamilyData)
deriving DecidableEq

/-- Outcome of the outbound fetch: a transport failure carrying the error
message, or a response with an HTTP status and a body. -/
inductive FetchResult where
  | fail (errMsg : String)
  | success (status : Nat) (body : JsonOutcome)
deriving DecidableEq

/-- Environment configuration relevant to the handler. -/
structure Config where
  accessCode : String
  showSensitive : Bool
deriving DecidableEq

def grantedMsg : String :=
  "✅ Access Granted! You can now send Aadhaar family IDs to fetch info."

def restrictedMsg : String :=
  "🔒 Access Restricted. Please enter the correct access code."

def invalidIdMsg : String :=
  "⚠️ Please send a valid Aadhaar family ID (digits only). Example: `116440054586`"

def fetchingMsg : String :=
  "🔍 Fetching Aadhaar family info..."

def noDataMsg : String :=
  "❌ No data found for this Aadhaar family ID."

def failedPrefix : String :=
  "❌ Failed to fetch data: "

/-- The catch-block notice: the fixed prefix followed by err.message. -/
def failedMsg (errMsg : String) : String :=
  failedPrefix ++ errMsg

def warnBanner : String :=
  "⚠️ Sensitive output is ENABLED. Handle with caution."

def maskedNotice : String :=
  "🔒 Sensitive fields are masked. Set SHOW_SENSITIVE=true in .env to see full data."

/-- JS whitespace test for trim (the common ASCII whitespace characters). -/
def jsIsSpace (c : Char) : Bool :=
  c == ' ' || c == '\t' || c == '\n' || c == '\r'

/-- Embedding of the JS trim call on the inbound text. -/
def jsTrim (s : String) : String :=
  String.mk (((s.data.dropWhile jsIsSpace).reverse.dropWhile jsIsSpace).reverse)

/-- JS falsiness of the trimmed text (empty string). -/
def isBlank (s : String) : Bool :=
  s.data.isEmpty

/-- The startsWith("/") test of the source. -/
def startsWithSlash (s : String) : Bool :=
  match s.data with
  | [] => false
  | c :: _ => c == '/'

/-- The identifier validation regex of the source: 6 to 15 digits. -/
def isValidId (s : String) : Bool :=
  decide (6 ≤ s.length) && decide (s.length ≤ 15) && s.data.all (fun c => c.isDigit)

/-- res.ok of the Fetch API: status in the 200 to 299 range. -/
def resOk (status : Nat) : Bool :=
  decide (200 ≤ status) && decide (status ≤ 299)

/-- The address shown in the reply: raw when sensitive output is enabled,
else masked keeping the last 6 characters. -/
def shownAddress (showSensitive : Bool) (d : FamilyData) : Option String :=
  if showSensitive then d.address else some (maskString d.address 6)

/-- The member name shown in the reply: raw when sensitive output is
enabled, else masked. -/
def shownName (showSensitive : Bool) (m : Member) : String :=
  if showSensitive then jsStr m.memberName else maskName m.memberName

/-- The member id shown in the reply: raw when sensitive output is enabled,
else masked keeping the last 4 characters. -/
def shownId (showSensitive : Bool) (m : Member) : String :=
  if showSensitive then jsStr m.memberId else maskString m.memberId 4

/-- The final line of the reply: warning banner when sensitive output is
enabled, else the masked-fields notice. -/
def footerLine (showSensitive : Bool) : String :=
  if showSensitive then warnBanner else maskedNotice

/-- The per-member text after the running number: name, relationship and id. -/
def memberBody (showSensitive : Bool) (m : Member) : String :=
  shownName showSensitive m ++ " — " ++ orNA m.releationship_name
    ++ "\n   🆔 " ++ shownId showSensitive m

/-- One rendered member line, numbered from 1 (the source maps index i to
label i + 1). -/
def renderMember (showSensitive : Bool) (i : Nat) (m : Member) : String :=
  toString (i + 1) ++ ". " ++ memberBody showSensitive m

/-- The indexed map over the member list of the source. -/
def memberLines (showSensitive : Bool) : Nat → List Member → List String
  | _, [] => []
  | i, m :: rest => renderMember showSensitive i m :: memberLines showSensitive (i + 1) rest

/-- JS Array.join with a separator (empty result on the empty list). -/
def joinSep (sep : String) : List String → String
  | [] => ""
  | [x] => x
  | x :: y :: rest => x ++ sep ++ joinSep sep (y :: rest)

/-- The joined members block of the reply. -/
def renderMembers (showSensitive : Bool) (ms : List Member) : String :=
  joinSep "\n\n" (memberLines showSensitive 0 ms)

/-- The lines of the success reply, in source order. -/
def messageLines (showSensitive : Bool) (d : FamilyData) (ms : List Member) : List String :=
  [ "🪪 **Aadhaar Family Info**",
    "────────────────────",
    safeLine "Scheme" (some (orNA d.schemeName)),
    safeLine "District" (some (orNA d.homeDistName)),
    safeLine "State" (some (orNA d.homeStateName)),
    safeLine "Address" (shownAddress showSensitive d),
    "",
    "👨‍👩‍👧‍👦 **Members:**",
    renderMembers showSensitive ms,
    "",
    footerLine showSensitive ]

/-- The full success reply text. -/
def renderMessage (showSensitive : Bool) (d : FamilyData) (ms : List Member) : String :=
  joinSep "\n" (messageLines showSensitive d ms)

/-- The try/catch block of the message handler (the flow from the fetching
notice onward), for an authorized chat with a validated identifier. The
fetch outcome and a possible failure of the final awaited send are
environment inputs; the state result and the list of emitted user notices
are returned. -/
def lookupFlow (showSensitive : Bool) (st : BotState) (chatId : Nat)
    (fetch : FetchResult) (sendErr : Option String) : BotState × List String :=
  match fetch with
  | .fail m => (st, [fetchingMsg, failedMsg m])
  | .success status body =>
    if !(resOk status) then (st, [fetchingMsg, failedMsg ("HTTP " ++ toString status)])
    else
      match body with
      | .malformed m => (st, [fetchingMsg, failedMsg m])
      | .parsed none => (st, [fetchingMsg, noDataMsg])
      | .parsed (some d) =>
        match d.memberDetailsList with
        | none => (st, [fetchingMsg, noDataMsg])
        | some members =>
          let bumped := bumpCounters st chatId
          match sendErr with
          | none => (bumped, [fetchingMsg, renderMessage showSensitive d members])
          | some e => (bumped, [fetchingMsg, failedMsg e])

/-- The inbound message handler of the source: guard against commands and
empty text, authorization gate, identifier validation, then the lookup
flow. -/
def handleMessage (cfg : Config) (st : BotState) (chatId : Nat) (text0 : String)
    (fetch : FetchResult) (sendErr : Option String) : BotState × List String :=
  let text := jsTrim text0
  if isBlank text || startsWithSlash text then (st, [])
  else
    match lookupSession st chatId with
    | none =>
      if text == cfg.accessCode then (addSession st chatId, [grantedMsg])
      else (st, [restrictedMsg])
    | some _ =>
      if !(isValidId text) then (st, [invalidIdMsg])
      else lookupFlow cfg.showSensitive st chatId fetch sendErr

/-- The stats reply body with the three figures interpolated. -/
def statsReply (tu uq tl : Nat) : String :=
  "\n📊 *Bot Stats:*\n────────────────────\n👤 Authorized Users: " ++ toString tu
    ++ "\n📈 Your Queries: " ++ toString uq
    ++ "\n🌐 Total Lookups: " ++ toString tl ++ "\n"

def statsDeniedMsg : String :=
  "🚫 You must be authorized to see stats. Enter the access code first."

/-- The stats command handler of the source: read-only. -/
def handleStats (st : BotState) (chatId : Nat) : List String :=
  match lookupSession st chatId with
  | none => [statsDeniedMsg]
  | some sess =>
    if !sess.authorized then [statsDeniedMsg]
    else [statsReply (totalUsers st) sess.queries st.totalLookups]

/-- One inbound message event with its environment outcomes. -/
structure Event where
  chatId : Nat
  text : String
  fetch : FetchResult
  sendErr : Option String
deriving DecidableEq

/-- The state transition of one inbound message. -/
def stepState (cfg : Config) (st : BotState) (e : Event) : BotState :=
  (handleMessage cfg st e.chatId e.text e.fetch e.sendErr).1

/-- Folding a sequence of inbound messages over the state. -/
def runEvents (cfg : Config) (st : BotState) (es : List Event) : BotState :=
  es.foldl (stepState cfg) st

lemma find?_append_of_none {α : Type} {p : α → Bool} {l1 l2 : List α}
    (h : l1.find? p = none) : (l1 ++ l2).find? p = l2.find? p := by
  induction l1 with
  | nil => rfl
  | cons a t ih =>
    by_cases hp : p a = true
    · rw [List.find?_cons_of_pos _ hp] at h
      exact absurd h (by simp)
    · rw [List.find?_cons_of_neg _ hp] at h
      rw [List.cons_append, List.find?_cons_of_neg _ hp]
      exact ih h

lemma find?_append_of_some {α : Type} {p : α → Bool} {l1 l2 : List α} {a : α}
    (h : l1.find? p = some a) : (l1 ++ l2).find? p = some a := by
  induction l1 with
  | nil => exact absurd h (by simp)
  | cons b t ih =>
    by_cases hp : p b = true
    · rw [List.find?_cons_of_pos _ hp] at h
      rw [List.cons_append, List.find?_cons_of_pos _ hp]
      exact h
    · rw [List.find?_cons_of_neg _ hp] at h
      rw [List.cons_append, List.find?_cons_of_neg _ hp]
      exact ih h

lemma lookupSession_addSession_self (st : BotState) (c : Nat)
    (h : lookupSession st c = none) :
    lookupSession (addSession st c) c = some ⟨true, 0⟩ := by
  unfold lookupSession at h ⊢
  unfold addSession
  have h0 : st.authorizedUsers.find? (fun p => p.1 == c) = none := by
    cases hf : st.authorizedUsers.find? (fun p => p.1 == c) with
    | none => rfl
    | some a => rw [hf] at h; exact absurd h (by simp)
  dsimp only
  rw [find?_append_of_none h0]
  simp [List.find?]

lemma lookupSession_addSession_of_some (st : BotState) (c0 c : Nat) (s : Session)
    (h : lookupSession st c = some s) :
    lookupSession (addSession st c0) c = some s := by
  unfold lookupSession at h ⊢
  unfold addSession
  cases hf : st.authorizedUsers.find? (fun p => p.1 == c) with
  | none => rw [hf] at h; exact absurd h (by simp)
  | some a =>
    dsimp only
    rw [find?_append_of_some hf]
    rw [hf] at h
    exact h

lemma find?_bumpList_self (l : List (Nat × Session)) (c : Nat) :
    ((l.map (fun p => if p.1 == c then (p.1, Session.mk p.2.authorized (p.2.queries + 1)) else p)).find?
        (fun p => p.1 == c)).map (fun p => p.2)
      = ((l.find? (fun p => p.1 == c)).map (fun p => p.2)).map
          (fun s => Session.mk s.authorized (s.queries + 1)) := by
  induction l with
  | nil => rfl
  | cons p t ih =>
    cases hp : (p.1 == c) with
    | true =>
      simp only [List.map_cons, if_pos hp, List.find?]
      rw [hp]
      rfl
    | false =>
      simp only [List.map_cons, if_neg (show ¬ ((p.1 == c) = true) by simp [hp]), List.find?]
      rw [hp]
      exact ih

lemma find?_bumpList_other (l : List (Nat × Session)) (c0 c : Nat) (hne : c ≠ c0) :
    (l.map (fun p => if p.1 == c0 then (p.1, Session.mk p.2.authorized (p.2.queries + 1)) else p)).find?
        (fun p => p.1 == c)
      = l.find? (fun p => p.1 == c) := by
  induction l with
  | nil => rfl
  | cons p t ih =>
    by_cases hp0 : (p.1 == c0) = true
    · have h1 : p.1 = c0 := by simpa using hp0
      have hp2 : (p.1 == c) = false := by
        rw [h1]
        exact beq_eq_false_iff_ne.mpr (fun h => hne h.symm)
      simp only [List.map_cons, if_pos hp0, List.find?]
      rw [hp2]
      exact ih
    · simp only [List.map_cons, if_neg hp0, List.find?]
      cases hp : (p.1 == c) with
      | true => rfl
      | false => exact ih

lemma lookupSession_bumpCounters_self (st : BotState) (c : Nat) :
    lookupSession (bumpCounters st c) c
      = (lookupSession st c).map (fun s => Session.mk s.authorized (s.queries + 1)) := by
  unfold lookupSession bumpCounters
  exact find?_bumpList_self st.authorizedUsers c

lemma lookupSession_bumpCounters_other (st : BotState) (c0 c : Nat) (hne : c ≠ c0) :
    lookupSession (bumpCounters st c0) c = lookupSession st c := by
  unfold lookupSession bumpCounters
  rw [find?_bumpList_other st.authorizedUsers c0 c hne]

lemma totalLookups_bumpCounters (st : BotState) (c : Nat) :
    (bumpCounters st c).totalLookups = st.totalLookups + 1 := rfl

lemma totalLookups_addSession (st : BotState) (c : Nat) :
    (addSession st c).totalLookups = st.totalLookups := rfl

/-- The store invariant: every stored session is authorized and its query
count is bounded by the global lookup counter. -/
def Inv (st : BotState) : Prop :=
  ∀ p ∈ st.authorizedUsers, p.2.authorized = true ∧ p.2.queries ≤ st.totalLookups

lemma inv_initialState : Inv initialState := by
  intro p hp
  exact absurd hp (by simp [initialState])

lemma inv_addSession (st : BotState) (c : Nat) (h : Inv st) : Inv (addSession st c) := by
  intro p hp
  simp only [addSession] at hp
  rcases List.mem_append.mp hp with h1 | h2
  · exact h p h1
  · have : p = (c, ⟨true, 0⟩) := by simpa using h2
    subst this
    exact ⟨rfl, Nat.zero_le _⟩

lemma inv_bumpCounters (st : BotState) (c : Nat) (h : Inv st) : Inv (bumpCounters st c) := by
  intro p hp
  simp only [bumpCounters, List.mem_map] at hp
  obtain ⟨q, hq, hpq⟩ := hp
  obtain ⟨h1, h2⟩ := h q hq
  rw [totalLookups_bumpCounters]
  by_cases hqc : (q.1 == c) = true
  · rw [if_pos hqc] at hpq
    subst hpq
    exact ⟨h1, Nat.succ_le_succ h2⟩
  · rw [if_neg hqc] at hpq
    subst hpq
    exact ⟨h1, Nat.le_succ_of_le h2⟩

lemma lookupFlow_state_cases (sh : Bool) (st : BotState) (c : Nat)
    (f : FetchResult) (e : Option String) :
    (lookupFlow sh st c f e).1 = st ∨ (lookupFlow sh st c f e).1 = bumpCounters st c := by
  unfold lookupFlow
  cases f with
  | fail m => exact Or.inl rfl
  | success status body =>
    dsimp only
    by_cases hok : (!(resOk status)) = true
    · rw [if_pos hok]
      exact Or.inl rfl
    · rw [if_neg hok]
      cases body with
      | malformed m => exact Or.inl rfl
      | parsed od =>
        cases od with
        | none => exact Or.inl rfl
        | some d =>
          dsimp only
          cases hm : d.memberDetailsList with
          | none => exact Or.inl rfl
          | some ms =>
            cases e with
            | none => exact Or.inr rfl
            | some em => exact Or.inr rfl

lemma handleMessage_state_cases (cfg : Config) (st : BotState) (c : Nat)
    (t : String) (f : FetchResult) (e : Option String) :
    (handleMessage cfg st c t f e).1 = st ∨
    (handleMessage cfg st c t f e).1 = addSession st c ∨
    (handleMessage cfg st c t f e).1 = bumpCounters st c := by
  unfold handleMessage
  dsimp only
  by_cases hg : (isBlank (jsTrim t) || startsWithSlash (jsTrim t)) = true
  · rw [if_pos hg]
    exact Or.inl rfl
  · rw [if_neg hg]
    cases hl : lookupSession st c with
    | none =>
      by_cases hc : (jsTrim t == cfg.accessCode) = true
      · rw [if_pos hc]
        exact Or.inr (Or.inl rfl)
      · rw [if_neg hc]
        exact Or.inl rfl
    | some sess =>
      by_cases hv : (!(isValidId (jsTrim t))) = true
      · rw [if_pos hv]
        exact Or.inl rfl
      · rw [if_neg hv]
        rcases lookupFlow_state_cases cfg.showSensitive st c f e with h1 | h1
        · exact Or.inl h1
        · exact Or.inr (Or.inr h1)

lemma inv_stepState (cfg : Config) (st : BotState) (e : Event) (h : Inv st) :
    Inv (stepState cfg st e) := by
  rcases handleMessage_state_cases cfg st e.chatId e.text e.fetch e.sendErr with h1 | h1 | h1 <;>
    unfold stepState <;> rw [h1]
  · exact h
  · exact inv_addSession st e.chatId h
  · exact inv_bumpCounters st e.chatId h

lemma inv_runEvents (cfg : Config) (st : BotState) (es : List Event) (h : Inv st) :
    Inv (runEvents cfg st es) := by
  induction es generalizing st with
  | nil => exact h
  | cons e rest ih => exact ih (stepState cfg st e) (inv_stepState cfg st e h)

lemma lookupSession_mem (st : BotState) (c : Nat) (s : Session)
    (h : lookupSession st c = some s) :
    ∃ p ∈ st.authorizedUsers, p.2 = s := by
  unfold lookupSession at h
  cases hf : st.authorizedUsers.find? (fun p => p.1 == c) with
  | none => rw [hf] at h; exact absurd h (by simp)
  | some p =>
    rw [hf] at h
    refine ⟨p, List.mem_of_find?_eq_some hf, ?_⟩
    simpa using h

lemma lookupSession_stepState_some (cfg : Config) (st : BotState) (e : Event)
    (c : Nat) (s : Session) (h : lookupSession st c = some s) :
    ∃ t : Session, lookupSession (stepState cfg st e) c = some t ∧
      t.authorized = s.authorized ∧ s.queries ≤ t.queries := by
  rcases handleMessage_state_cases cfg st e.chatId e.text e.fetch e.sendErr with h1 | h1 | h1 <;>
    unfold stepState <;> rw [h1]
  · exact ⟨s, h, rfl, Nat.le_refl _⟩
  · exact ⟨s, lookupSession_addSession_of_some st e.chatId c s h, rfl, Nat.le_refl _⟩
  · by_cases hc : c = e.chatId
    · subst hc
      refine ⟨⟨s.authorized, s.queries + 1⟩, ?_, rfl, Nat.le_succ s.queries⟩
      rw [lookupSession_bumpCounters_self, h]
      rfl
    · exact ⟨s, by rw [lookupSession_bumpCounters_other st e.chatId c hc]; exact h,
        rfl, Nat.le_refl _⟩

lemma lookupSession_runEvents_some (cfg : Config) (st : BotState) (es : List Event)
    (c : Nat) (s : Session) (h : lookupSession st c = some s) :
    ∃ t : Session, lookupSession (runEvents cfg st es) c = some t ∧
      t.authorized = s.authorized ∧ s.queries ≤ t.queries := by
  induction es generalizing st s with
  | nil => exact ⟨s, h, rfl, Nat.le_refl _⟩
  | cons e rest ih =>
    obtain ⟨t, ht, ha, hq⟩ := lookupSession_stepState_some cfg st e c s h
    obtain ⟨u, hu, ha2, hq2⟩ := ih (stepState cfg st e) t ht
    exact ⟨u, hu, by rw [ha2, ha], by omega⟩

lemma runEvents_append (cfg : Config) (st : BotState) (es fs : List Event) :
    runEvents cfg st (es ++ fs) = runEvents cfg (runEvents cfg st es) fs := by
  unfold runEvents
  rw [List.foldl_append]

/-- C4: over any sequence of inbound events from the initial state, a
stored session is always authorized (the flag is monotone: it stays true
across any further events, and sessions are never removed), and its query
count never exceeds the global totalLookups counter. -/
theorem session_store_invariants (cfg : Config) (es fs : List Event) (c : Nat) (s : Session)
    (h : lookupSession (runEvents cfg initialState es) c = some s) :
    s.authorized = true ∧
    s.queries ≤ (runEvents cfg initialState es).totalLookups ∧
    ∃ t : Session, lookupSession (runEvents cfg initialState (es ++ fs)) c = some t ∧
      t.authorized = true ∧ s.queries ≤ t.queries := by
  have hinv := inv_runEvents cfg initialState es inv_initialState
  obtain ⟨p, hp, hps⟩ := lookupSession_mem _ _ _ h
  obtain ⟨h1, h2⟩ := hinv p hp
  rw [hps] at h1 h2
  refine ⟨h1, h2, ?_⟩
  rw [runEvents_append]
  obtain ⟨t, ht, ha, hq⟩ := lookupSession_runEvents_some cfg _ fs c s h
  exact ⟨t, ht, by rw [ha, h1], hq⟩

/-- Witness for C4 at a concrete event sequence: a grant followed by a
successful lookup. -/
theorem session_store_invariants_witness :
    (true : Bool) = true ∧
    (0 : Nat) ≤ (runEvents ⟨"123456", false⟩ initialState
      [⟨1, "123456", FetchResult.fail "x", none⟩]).totalLookups ∧
    ∃ t : Session,
      lookupSession (runEvents ⟨"123456", false⟩ initialState
        ([⟨1, "123456", FetchResult.fail "x", none⟩] ++
          [⟨1, "116440054586", FetchResult.success 200
            (JsonOutcome.parsed (some ⟨none, none, none, none, some []⟩)), none⟩])) 1
        = some t ∧
      t.authorized = true ∧ (0 : Nat) ≤ t.queries :=
  session_store_invariants ⟨"123456", false⟩
    [⟨1, "123456", FetchResult.fail "x", none⟩]
    [⟨1, "116440054586", FetchResult.success 200
      (JsonOutcome.parsed (some ⟨none, none, none, none, some []⟩)), none⟩]
    1 ⟨true, 0⟩ (by decide)

lemma str_ext {a b : String} (h : a.data = b.data) : a = b := by
  cases a
  cases b
  exact congrArg String.mk h

lemma valid_not_blank (t : String) (h : isValidId t = true) : isBlank t = false := by
  unfold isValidId at h
  simp only [Bool.and_eq_true, decide_eq_true_eq] at h
  unfold isBlank
  cases hd : t.data with
  | nil =>
    exfalso
    have := h.1.1
    rw [length_eq_data, hd] at this
    simp at this
  | cons a l => rfl

lemma valid_not_slash (t : String) (h : isValidId t = true) : startsWithSlash t = false := by
  unfold isValidId at h
  simp only [Bool.and_eq_true, decide_eq_true_eq, List.all_eq_true] at h
  unfold startsWithSlash
  cases hd : t.data with
  | nil => rfl
  | cons a l =>
    dsimp only
    have ha : a.isDigit = true := h.2 a (by rw [hd]; exact List.mem_cons_self a l)
    cases hq : (a == '/') with
    | false => rfl
    | true =>
      exfalso
      have he : a = '/' := by simpa using hq
      rw [he] at ha
      exact absurd ha (by decide)

/-- Under an existing session and a trimmed, pattern-valid identifier, the
handler reduces to the try/catch lookup flow. -/
lemma handleMessage_authorized (cfg : Config) (st : BotState) (c : Nat) (t : String)
    (f : FetchResult) (e : Option String) (s : Session)
    (hs : lookupSession st c = some s) (htrim : jsTrim t = t) (hvalid : isValidId t = true) :
    handleMessage cfg st c t f e = lookupFlow cfg.showSensitive st c f e := by
  unfold handleMessage
  dsimp only
  rw [htrim]
  rw [if_neg (by simp [valid_not_blank t hvalid, valid_not_slash t hvalid])]
  rw [hs]
  dsimp only
  rw [if_neg (by simp [hvalid])]

/-- Under no session and a trimmed, non-command text, the handler reduces
to the authorization branch. -/
lemma handleMessage_unauthorized (cfg : Config) (st : BotState) (c : Nat) (t : String)
    (f : FetchResult) (e : Option String)
    (hnone : lookupSession st c = none) (htrim : jsTrim t = t)
    (hb : isBlank t = false) (hsl : startsWithSlash t = false) :
    handleMessage cfg st c t f e =
      if t == cfg.accessCode then (addSession st c, [grantedMsg]) else (st, [restrictedMsg]) := by
  unfold handleMessage
  dsimp only
  rw [htrim]
  rw [if_neg (by simp [hb, hsl])]
  rw [hnone]

lemma lookupFlow_fail (sh : Bool) (st : BotState) (c : Nat) (m : String) (e : Option String) :
    lookupFlow sh st c (FetchResult.fail m) e = (st, [fetchingMsg, failedMsg m]) := rfl

lemma lookupFlow_httpError (sh : Bool) (st : BotState) (c : Nat) (status : Nat)
    (body : JsonOutcome) (e : Option String) (h : resOk status = false) :
    lookupFlow sh st c (FetchResult.success status body) e
      = (st, [fetchingMsg, failedMsg ("HTTP " ++ toString status)]) := by
  unfold lookupFlow
  dsimp only
  rw [if_pos (by simp [h])]

lemma lookupFlow_malformed (sh : Bool) (st : BotState) (c : Nat) (status : Nat)
    (m : String) (e : Option String) (h : resOk status = true) :
    lookupFlow sh st c (FetchResult.success status (JsonOutcome.malformed m)) e
      = (st, [fetchingMsg, failedMsg m]) := by
  unfold lookupFlow
  dsimp only
  rw [if_neg (by simp [h])]

lemma lookupFlow_nullBody (sh : Bool) (st : BotState) (c : Nat) (status : Nat)
    (e : Option String) (h : resOk status = true) :
    lookupFlow sh st c (FetchResult.success status (JsonOutcome.parsed none)) e
      = (st, [fetchingMsg, noDataMsg]) := by
  unfold lookupFlow
  dsimp only
  rw [if_neg (by simp [h])]

lemma lookupFlow_noList (sh : Bool) (st : BotState) (c : Nat) (status : Nat)
    (d : FamilyData) (e : Option String) (h : resOk status = true)
    (hm : d.memberDetailsList = none) :
    lookupFlow sh st c (FetchResult.success status (JsonOutcome.parsed (some d))) e
      = (st, [fetchingMsg, noDataMsg]) := by
  unfold lookupFlow
  dsimp only
  rw [if_neg (by simp [h])]
  rw [hm]

lemma lookupFlow_membersOk (sh : Bool) (st : BotState) (c : Nat) (status : Nat)
    (d : FamilyData) (ms : List Member) (h : resOk status = true)
    (hm : d.memberDetailsList = some ms) :
    lookupFlow sh st c (FetchResult.success status (JsonOutcome.parsed (some d))) none
      = (bumpCounters st c, [fetchingMsg, renderMessage sh d ms]) := by
  unfold lookupFlow
  dsimp only
  rw [if_neg (by simp [h])]
  rw [hm]

lemma lookupFlow_membersSendErr (sh : Bool) (st : BotState) (c : Nat) (status : Nat)
    (d : FamilyData) (ms : List Member) (em : String) (h : resOk status = true)
    (hm : d.memberDetailsList = some ms) :
    lookupFlow sh st c (FetchResult.success status (JsonOutcome.parsed (some d))) (some em)
      = (bumpCounters st c, [fetchingMsg, failedMsg em]) := by
  unfold lookupFlow
  dsimp only
  rw [if_neg (by simp [h])]
  rw [hm]

/-- Test fixture: a configuration with a six-digit access code and masking
enabled. -/
def cexConfig : Config := ⟨"123456", false⟩

/-- Test fixture: a store holding one authorized session for chat 1 with no
lookups yet. -/
def cexState : BotState := ⟨[(1, ⟨true, 0⟩)], 0⟩

/-- Test fixture: one upstream member entry. -/
def cexMember : Member := ⟨some "ramesh kumar", some "Self", some "123456789012"⟩

/-- Test fixture: an upstream record with a single member. -/
def cexData : FamilyData :=
  ⟨some "PMAY-G", some "Pune", some "Maharashtra", some "12 MG Road Pune", some [cexMember]⟩

/-- For an authorized chat the handler state is the old state or the
bumped state. -/
lemma handleMessage_authorized_state_cases (cfg : Config) (st : BotState) (c : Nat)
    (t : String) (f : FetchResult) (e : Option String) (s : Session)
    (hs : lookupSession st c = some s) :
    (handleMessage cfg st c t f e).1 = st ∨
    (handleMessage cfg st c t f e).1 = bumpCounters st c := by
  unfold handleMessage
  dsimp only
  by_cases hg : (isBlank (jsTrim t) || startsWithSlash (jsTrim t)) = true
  · rw [if_pos hg]
    exact Or.inl rfl
  · rw [if_neg hg, hs]
    dsimp only
    by_cases hv : (!(isValidId (jsTrim t))) = true
    · rw [if_pos hv]
      exact Or.inl rfl
    · rw [if_neg hv]
      exact lookupFlow_state_cases cfg.showSensitive st c f e

/-- For an authorized chat, when the lookup flow leaves the state alone so
does the whole handler. -/
lemma handleMessage_authorized_flowState (cfg : Config) (st : BotState) (c : Nat)
    (t : String) (f : FetchResult) (e : Option String) (s : Session)
    (hs : lookupSession st c = some s)
    (hflow : (lookupFlow cfg.showSensitive st c f e).1 = st) :
    (handleMessage cfg st c t f e).1 = st := by
  unfold handleMessage
  dsimp only
  by_cases hg : (isBlank (jsTrim t) || startsWithSlash (jsTrim t)) = true
  · rw [if_pos hg]
  · rw [if_neg hg, hs]
    dsimp only
    by_cases hv : (!(isValidId (jsTrim t))) = true
    · rw [if_pos hv]
    · rw [if_neg hv]
      exact hflow

/-- C1 counterexample: for an authorized chat and a fetch that succeeds
with a parsed record, a failure of the final awaited send lands in the
catch block (the failure notice is emitted) while both counters have
already advanced, so an error branch is taken with the counters changed. -/
theorem lookup_error_after_count_cex :
    (handleMessage cexConfig cexState 1 "116440054586"
        (FetchResult.success 200 (JsonOutcome.parsed (some cexData))) (some "socket hang up")).2
      = [fetchingMsg, failedMsg "socket hang up"] ∧
    (handleMessage cexConfig cexState 1 "116440054586"
        (FetchResult.success 200 (JsonOutcome.parsed (some cexData))) (some "socket hang up")).1
      = ⟨[(1, ⟨true, 1⟩)], 1⟩ := by
  decide

/-- C1 (amended): for an authorized chat, the handler either leaves the
store unchanged or applies bumpCounters, which advances the per-session
query count and the global totalLookups together (never one without the
other); a transport failure, a non-success HTTP status, a malformed body,
a null body, or a body without the member-list field leaves the store
unchanged; the counters advance exactly when the parsed body carries the
member-list field, and they remain advanced even when the final send of
the rendered reply fails and the failure notice is emitted. -/
theorem lookup_counter_discipline (cfg : Config) (st : BotState) (c : Nat) (t : String)
    (f : FetchResult) (e : Option String) (s : Session)
    (hs : lookupSession st c = some s) :
    ((handleMessage cfg st c t f e).1 = st ∨
      (handleMessage cfg st c t f e).1 = bumpCounters st c) ∧
    (bumpCounters st c).totalLookups = st.totalLookups + 1 ∧
    lookupSession (bumpCounters st c) c = some ⟨s.authorized, s.queries + 1⟩ ∧
    (∀ m, f = FetchResult.fail m → (handleMessage cfg st c t f e).1 = st) ∧
    (∀ status body, f = FetchResult.success status body → resOk status = false →
      (handleMessage cfg st c t f e).1 = st) ∧
    (∀ status m, f = FetchResult.success status (JsonOutcome.malformed m) →
      resOk status = true → (handleMessage cfg st c t f e).1 = st) ∧
    (∀ status, f = FetchResult.success status (JsonOutcome.parsed none) →
      resOk status = true → (handleMessage cfg st c t f e).1 = st) ∧
    (∀ status d, f = FetchResult.success status (JsonOutcome.parsed (some d)) →
      resOk status = true → d.memberDetailsList = none →
      (handleMessage cfg st c t f e).1 = st) := by
  refine ⟨handleMessage_authorized_state_cases cfg st c t f e s hs,
    totalLookups_bumpCounters st c, ?_, ?_, ?_, ?_, ?_, ?_⟩
  · rw [lookupSession_bumpCounters_self, hs]
    rfl
  · intro m hf
    subst hf
    exact handleMessage_authorized_flowState cfg st c t _ e s hs
      (by rw [lookupFlow_fail])
  · intro status body hf hst
    subst hf
    exact handleMessage_authorized_flowState cfg st c t _ e s hs
      (by rw [lookupFlow_httpError _ _ _ _ _ _ hst])
  · intro status m hf hst
    subst hf
    exact handleMessage_authorized_flowState cfg st c t _ e s hs
      (by rw [lookupFlow_malformed _ _ _ _ _ _ hst])
  · intro status hf hst
    subst hf
    exact handleMessage_authorized_flowState cfg st c t _ e s hs
      (by rw [lookupFlow_nullBody _ _ _ _ _ hst])
  · intro status d hf hst hm
    subst hf
    exact handleMessage_authorized_flowState cfg st c t _ e s hs
      (by rw [lookupFlow_noList _ _ _ _ _ _ hst hm])

/-- Witness for the amended C1 statement at a concrete input: the session
exists, and a transport failure leaves the state unchanged. -/
theorem lookup_counter_discipline_witness :
    lookupSession cexState 1 = some ⟨true, 0⟩ ∧
    (handleMessage cexConfig cexState 1 "116440054586" (FetchResult.fail "boom") none).1
      = cexState :=
  ⟨by decide,
    (lookup_counter_discipline cexConfig cexState 1 "116440054586" (FetchResult.fail "boom")
      none ⟨true, 0⟩ (by decide)).2.2.2.1 "boom" rfl⟩

/-- C2 counterexample: the failure notice sent to the user embeds the
internal error detail (here the upstream HTTP status), and differs between
errors, so it is not a single generic safe message. -/
theorem error_notice_detail_cex :
    (handleMessage cexConfig cexState 1 "116440054586"
        (FetchResult.success 500 (JsonOutcome.parsed none)) none).2
      = [fetchingMsg, failedPrefix ++ "HTTP 500"] ∧
    (handleMessage cexConfig cexState 1 "116440054586"
        (FetchResult.success 404 (JsonOutcome.parsed none)) none).2
      ≠ (handleMessage cexConfig cexState 1 "116440054586"
          (FetchResult.success 500 (JsonOutcome.parsed none)) none).2 := by
  decide

/-- C2 (amended): on every lookup failure the user receives the fetching
notice followed by exactly one failure message, which is the fixed prefix
with the internal error message appended verbatim (transport error text,
HTTP status, or JSON parse error); the detail is therefore included in the
user notice rather than hidden, while the store is untouched. -/
theorem error_notice_shape (cfg : Config) (st : BotState) (c : Nat) (t : String)
    (e : Option String) (s : Session)
    (hs : lookupSession st c = some s) (htrim : jsTrim t = t) (hvalid : isValidId t = true) :
    (∀ m, handleMessage cfg st c t (FetchResult.fail m) e
      = (st, [fetchingMsg, failedPrefix ++ m])) ∧
    (∀ status body, resOk status = false →
      handleMessage cfg st c t (FetchResult.success status body) e
        = (st, [fetchingMsg, failedPrefix ++ ("HTTP " ++ toString status)])) ∧
    (∀ status m, resOk status = true →
      handleMessage cfg st c t (FetchResult.success status (JsonOutcome.malformed m)) e
        = (st, [fetchingMsg, failedPrefix ++ m])) := by
  refine ⟨?_, ?_, ?_⟩
  · intro m
    rw [handleMessage_authorized cfg st c t _ e s hs htrim hvalid, lookupFlow_fail]
    rfl
  · intro status body hst
    rw [handleMessage_authorized cfg st c t _ e s hs htrim hvalid,
      lookupFlow_httpError _ _ _ _ _ _ hst]
    rfl
  · intro status m hst
    rw [handleMessage_authorized cfg st c t _ e s hs htrim hvalid,
      lookupFlow_malformed _ _ _ _ _ _ hst]
    rfl

/-- Witness for the amended C2 statement at a concrete input. -/
theorem error_notice_shape_witness :
    lookupSession cexState 1 = some ⟨true, 0⟩ ∧
    handleMessage cexConfig cexState 1 "116440054586" (FetchResult.fail "ECONNRESET") none
      = (cexState, [fetchingMsg, failedPrefix ++ "ECONNRESET"]) :=
  ⟨by decide,
    (error_notice_shape cexConfig cexState 1 "116440054586" none ⟨true, 0⟩
      (by decide) (by decide) (by decide)).1 "ECONNRESET"⟩

/-- C3 counterexample: a wrong access code from a chat with no session
creates no session at all (rather than one with authorized set to false),
and the totalUsers count stays zero, so totalUsers does not count failed
attempts. -/
theorem wrong_code_no_session_cex :
    handleMessage cexConfig initialState 1 "wrong" (FetchResult.fail "") none
      = (initialState, [restrictedMsg]) ∧
    lookupSession (handleMessage cexConfig initialState 1 "wrong" (FetchResult.fail "") none).1 1
      = none ∧
    totalUsers (handleMessage cexConfig initialState 1 "wrong" (FetchResult.fail "") none).1
      = 0 := by
  decide

/-- C3 (amended): for a chat with no session, a non-matching code leaves
the store unchanged (no session is created), while a matching code creates
the session directly with authorized set to true; consequently every
stored session is authorized, and the stats totalUsers figure counts the
authorized sessions, not all access attempts. -/
theorem session_creation_policy (cfg : Config) (st : BotState) (c : Nat) (t : String)
    (f : FetchResult) (e : Option String)
    (hnone : lookupSession st c = none) (htrim : jsTrim t = t)
    (hb : isBlank t = false) (hsl : startsWithSlash t = false) :
    (t ≠ cfg.accessCode → handleMessage cfg st c t f e = (st, [restrictedMsg])) ∧
    (t = cfg.accessCode → handleMessage cfg st c t f e = (addSession st c, [grantedMsg])) ∧
    lookupSession (addSession st c) c = some ⟨true, 0⟩ ∧
    totalUsers (addSession st c) = totalUsers st + 1 ∧
    (∀ es, ∀ p ∈ (runEvents cfg initialState es).authorizedUsers, p.2.authorized = true) := by
  refine ⟨?_, ?_, lookupSession_addSession_self st c hnone, ?_, ?_⟩
  · intro hne
    rw [handleMessage_unauthorized cfg st c t f e hnone htrim hb hsl]
    rw [if_neg (by simpa using hne)]
  · intro heq
    rw [handleMessage_unauthorized cfg st c t f e hnone htrim hb hsl]
    rw [if_pos (by simpa using heq)]
  · simp [totalUsers, addSession]
  · intro es p hp
    exact (inv_runEvents cfg initialState es inv_initialState p hp).1

/-- Witness for the amended C3 statement at a concrete input. -/
theorem session_creation_policy_witness :
    lookupSession initialState 1 = none ∧
    handleMessage cexConfig initialState 1 "wrong" (FetchResult.fail "") none
      = (initialState, [restrictedMsg]) :=
  ⟨by decide,
    (session_creation_policy cexConfig initialState 1 "wrong" (FetchResult.fail "") none
      (by decide) (by decide) (by decide) (by decide)).1 (by decide)⟩

/-- Test fixture: the four-digit access code of the spec example. -/
def scnConfig : Config := ⟨"1234", false⟩

/-- C6 counterexample: with a six-digit access code, resubmitting the code
on an already-authorized chat is not an inert AlreadyAuthorized outcome:
the text passes identifier validation, a lookup runs, and the store is
mutated. -/
theorem already_authorized_cex :
    (handleMessage cexConfig cexState 1 "123456"
        (FetchResult.success 200 (JsonOutcome.parsed (some cexData))) none).1 ≠ cexState := by
  decide

/-- C6 (amended): once a session is authorized, the handler never reads the
access code again (its result is independent of the configured code), and
text is handled as a lookup identifier instead; when the submitted code
fails the identifier pattern, the reply is the validation notice and the
state is unchanged; in the spec scenario with code 1234, wrong then
correct then correct yields denial with no session, then a grant, then a
validation notice with no state change. -/
theorem authorized_resubmission (cfg cfg2 : Config) (st : BotState) (c : Nat) (t : String)
    (f : FetchResult) (e : Option String) (s : Session)
    (hs : lookupSession st c = some s) (hshow : cfg.showSensitive = cfg2.showSensitive)
    (htrim : jsTrim t = t) (hb : isBlank t = false) (hsl : startsWithSlash t = false) :
    handleMessage cfg st c t f e = handleMessage cfg2 st c t f e ∧
    (isValidId t = false → handleMessage cfg st c t f e = (st, [invalidIdMsg])) ∧
    handleMessage scnConfig initialState 1 "wrong" (FetchResult.fail "x") none
      = (initialState, [restrictedMsg]) ∧
    handleMessage scnConfig initialState 1 "1234" (FetchResult.fail "x") none
      = (addSession initialState 1, [grantedMsg]) ∧
    lookupSession (addSession initialState 1) 1 = some ⟨true, 0⟩ ∧
    handleMessage scnConfig (addSession initialState 1) 1 "1234" (FetchResult.fail "x") none
      = (addSession initialState 1, [invalidIdMsg]) := by
  refine ⟨?_, ?_, by decide, by decide, by decide, by decide⟩
  · unfold handleMessage
    dsimp only
    rw [hs, hshow]
  · intro hv
    unfold handleMessage
    dsimp only
    rw [htrim]
    rw [if_neg (by simp [hb, hsl])]
    rw [hs]
    dsimp only
    rw [if_pos (by simp [hv])]

/-- Witness for the amended C6 statement at a concrete input: the handler
result does not depend on the configured access code once authorized. -/
theorem authorized_resubmission_witness :
    handleMessage cexConfig cexState 1 "1234" (FetchResult.fail "x") none
      = handleMessage ⟨"999999", false⟩ cexState 1 "1234" (FetchResult.fail "x") none :=
  (authorized_resubmission cexConfig ⟨"999999", false⟩ cexState 1 "1234"
    (FetchResult.fail "x") none ⟨true, 0⟩ (by decide) rfl (by decide) (by decide) (by decide)).1

/-- Test fixture: a second upstream member entry. -/
def cexMember2 : Member := ⟨some "sita kumar", some "Spouse", some "234567890123"⟩

/-- Test fixture: an upstream record with two members. -/
def cexData2 : FamilyData :=
  ⟨some "PMAY-G", some "Pune", some "Maharashtra", some "12 MG Road Pune",
    some [cexMember, cexMember2]⟩

/-- Test fixture: an upstream record whose member list is present but
empty. -/
def cexDataEmpty : FamilyData := ⟨some "PMAY-G", none, none, none, some []⟩

/-- C8: for an authorized chat, a valid identifier, and a gateway success
whose record holds exactly two members, the session query count and the
global totalLookups each advance by one, and the reply renders exactly the
two member lines in input order, numbered 1 and 2. -/
theorem two_member_success (cfg : Config) (st : BotState) (c : Nat) (t : String)
    (s : Session) (d : FamilyData) (m1 m2 : Member)
    (hs : lookupSession st c = some s) (htrim : jsTrim t = t) (hvalid : isValidId t = true)
    (hm : d.memberDetailsList = some [m1, m2]) :
    (handleMessage cfg st c t (FetchResult.success 200 (JsonOutcome.parsed (some d))) none).1.totalLookups
      = st.totalLookups + 1 ∧
    lookupSession
        (handleMessage cfg st c t (FetchResult.success 200 (JsonOutcome.parsed (some d))) none).1 c
      = some ⟨s.authorized, s.queries + 1⟩ ∧
    (handleMessage cfg st c t (FetchResult.success 200 (JsonOutcome.parsed (some d))) none).2
      = [fetchingMsg, renderMessage cfg.showSensitive d [m1, m2]] ∧
    renderMembers cfg.showSensitive [m1, m2]
      = renderMember cfg.showSensitive 0 m1 ++ "\n\n" ++ renderMember cfg.showSensitive 1 m2 ∧
    renderMember cfg.showSensitive 0 m1 = "1. " ++ memberBody cfg.showSensitive m1 ∧
    renderMember cfg.showSensitive 1 m2 = "2. " ++ memberBody cfg.showSensitive m2 := by
  rw [handleMessage_authorized cfg st c t _ none s hs htrim hvalid,
    lookupFlow_membersOk _ _ _ _ _ _ (by decide) hm]
  refine ⟨rfl, ?_, rfl, rfl, rfl, rfl⟩
  rw [lookupSession_bumpCounters_self, hs]
  rfl

/-- Witness for C8 at a concrete input. -/
theorem two_member_success_witness :
    lookupSession cexState 1 = some ⟨true, 0⟩ ∧
    (handleMessage cexConfig cexState 1 "116440054586"
        (FetchResult.success 200 (JsonOutcome.parsed (some cexData2))) none).1.totalLookups
      = cexState.totalLookups + 1 :=
  ⟨by decide,
    (two_member_success cexConfig cexState 1 "116440054586" ⟨true, 0⟩ cexData2
      cexMember cexMember2 (by decide) (by decide) (by decide) rfl).1⟩

/-- C9: with the show-sensitive flag enabled the rendered address, member
name and member identifier are the raw record values verbatim and the
last reply line is the warning banner; with the flag disabled they are the
masked forms and the last line is the masked-fields notice, which differs
from the banner. -/
theorem sensitive_flag_rendering (d : FamilyData) (m : Member) (ms : List Member)
    (a nm mid : String) (ha : d.address = some a) (hn : m.memberName = some nm)
    (hi : m.memberId = some mid) :
    (shownAddress true d = some a ∧ shownName true m = nm ∧ shownId true m = mid ∧
      (messageLines true d ms).getLast? = some warnBanner) ∧
    (shownAddress false d = some (maskString (some a) 6) ∧
      shownName false m = maskName (some nm) ∧
      shownId false m = maskString (some mid) 4 ∧
      (messageLines false d ms).getLast? = some maskedNotice) ∧
    warnBanner ≠ maskedNotice ∧
    ∀ sh : Bool, renderMessage sh d ms = joinSep "\n" (messageLines sh d ms) := by
  refine ⟨⟨?_, ?_, ?_, rfl⟩, ⟨?_, ?_, ?_, rfl⟩, by decide, fun sh => rfl⟩
  · simp [shownAddress, ha]
  · simp [shownName, jsStr, hn]
  · simp [shownId, jsStr, hi]
  · simp [shownAddress, ha]
  · simp [shownName, hn]
  · simp [shownId, hi]

/-- Witness for C9 at a concrete record. -/
theorem sensitive_flag_rendering_witness :
    shownAddress true cexData = some "12 MG Road Pune" ∧
    shownName false cexMember = maskName (some "ramesh kumar") :=
  ⟨(sensitive_flag_rendering cexData cexMember [cexMember] "12 MG Road Pune"
      "ramesh kumar" "123456789012" rfl rfl rfl).1.1,
    (sensitive_flag_rendering cexData cexMember [cexMember] "12 MG Road Pune"
      "ramesh kumar" "123456789012" rfl rfl rfl).2.1.2.1⟩

/-- C10: a parsed body whose member-list field holds an empty sequence is
treated as a successful lookup: both counters advance and the reply is the
rendered header with zero member lines; the not-found notice is emitted
exactly when the member-list field is absent or the body itself is null. -/
theorem empty_member_list_success (cfg : Config) (st : BotState) (c : Nat) (t : String)
    (s : Session) (d : FamilyData)
    (hs : lookupSession st c = some s) (htrim : jsTrim t = t) (hvalid : isValidId t = true)
    (hempty : d.memberDetailsList = some []) :
    handleMessage cfg st c t (FetchResult.success 200 (JsonOutcome.parsed (some d))) none
      = (bumpCounters st c, [fetchingMsg, renderMessage cfg.showSensitive d []]) ∧
    (bumpCounters st c).totalLookups = st.totalLookups + 1 ∧
    lookupSession (bumpCounters st c) c = some ⟨s.authorized, s.queries + 1⟩ ∧
    renderMembers cfg.showSensitive [] = "" ∧
    (∀ d2 : FamilyData, d2.memberDetailsList = none →
      handleMessage cfg st c t (FetchResult.success 200 (JsonOutcome.parsed (some d2))) none
        = (st, [fetchingMsg, noDataMsg])) ∧
    handleMessage cfg st c t (FetchResult.success 200 (JsonOutcome.parsed none)) none
      = (st, [fetchingMsg, noDataMsg]) := by
  refine ⟨?_, rfl, ?_, rfl, ?_, ?_⟩
  · rw [handleMessage_authorized cfg st c t _ none s hs htrim hvalid,
      lookupFlow_membersOk _ _ _ _ _ _ (by decide) hempty]
  · rw [lookupSession_bumpCounters_self, hs]
    rfl
  · intro d2 h2
    rw [handleMessage_authorized cfg st c t _ none s hs htrim hvalid,
      lookupFlow_noList _ _ _ _ _ _ (by decide) h2]
  · rw [handleMessage_authorized cfg st c t _ none s hs htrim hvalid,
      lookupFlow_nullBody _ _ _ _ _ (by decide)]

/-- Witness for C10 at a concrete input. -/
theorem empty_member_list_success_witness :
    lookupSession cexState 1 = some ⟨true, 0⟩ ∧
    handleMessage cexConfig cexState 1 "116440054586"
        (FetchResult.success 200 (JsonOutcome.parsed (some cexDataEmpty))) none
      = (bumpCounters cexState 1, [fetchingMsg, renderMessage false cexDataEmpty []]) :=
  ⟨by decide,
    (empty_member_list_success cexConfig cexState 1 "116440054586" ⟨true, 0⟩ cexDataEmpty
      (by decide) (by decide) (by decide) rfl).1⟩

end AadharBot
